import Mathlib

/-!
Shallow embedding of the simscript-physics rigid-body core (Rust, glam-based)
over the rational numbers, together with theorems settling the spec claims.

f64 arithmetic is idealised as exact ℚ arithmetic.  The three irrational
primitives the code pulls from f64 (square root, sine, cosine) are abstracted
into a `RealOps` record; theorems either hold for every choice of these
operations or instantiate them with functions that agree with the true
real-valued operations at every point actually evaluated.  `std::time::Duration`
is idealised as an exact nonnegative rational number of seconds (the code only
halves it, divides it by six, and converts it with `as_secs_f64`).
-/

namespace SimPhys

/-- Abstract interface for the irrational f64 primitives used by the code. -/
structure RealOps where
  sqrt : ℚ → ℚ
  sin : ℚ → ℚ
  cos : ℚ → ℚ

/-- Embedding of glam `DVec3` with ℚ components. -/
@[ext]
structure Vec3 where
  x : ℚ
  y : ℚ
  z : ℚ
  deriving DecidableEq

namespace Vec3

def zero : Vec3 := ⟨0, 0, 0⟩

def add (a b : Vec3) : Vec3 := ⟨a.x + b.x, a.y + b.y, a.z + b.z⟩

def sub (a b : Vec3) : Vec3 := ⟨a.x - b.x, a.y - b.y, a.z - b.z⟩

def neg (a : Vec3) : Vec3 := ⟨-a.x, -a.y, -a.z⟩

/-- Scalar multiplication (glam `f64 * DVec3` / `DVec3 * f64`). -/
def smul (c : ℚ) (a : Vec3) : Vec3 := ⟨c * a.x, c * a.y, c * a.z⟩

/-- Componentwise product (glam `DVec3 * DVec3`). -/
def mulV (a b : Vec3) : Vec3 := ⟨a.x * b.x, a.y * b.y, a.z * b.z⟩

/-- Division by a scalar (glam `DVec3 / f64`). -/
def divS (a : Vec3) (c : ℚ) : Vec3 := ⟨a.x / c, a.y / c, a.z / c⟩

def dot (a b : Vec3) : ℚ := a.x * b.x + a.y * b.y + a.z * b.z

def cross (a b : Vec3) : Vec3 :=
  ⟨a.y * b.z - b.y * a.z, a.z * b.x - b.z * a.x, a.x * b.y - b.x * a.y⟩

/-- The `xzy` swizzle (glam `Vec3Swizzles::xzy`). -/
def xzy (a : Vec3) : Vec3 := ⟨a.x, a.z, a.y⟩

def length_squared (a : Vec3) : ℚ := dot a a

def length (ops : RealOps) (a : Vec3) : ℚ := ops.sqrt (dot a a)

/-- glam `DVec3::normalize_or_zero`: the reciprocal length is computed and the
vector scaled by it when that reciprocal is finite and positive, otherwise the
zero vector is returned.  In the ℚ model the reciprocal of a zero length is 0
(instead of the non-finite f64 value), which fails `0 < rcp` exactly like the
f64 `is_finite` guard does. -/
def normalize_or_zero (ops : RealOps) (a : Vec3) : Vec3 :=
  let rcp := (length ops a)⁻¹
  if 0 < rcp then smul rcp a else zero

end Vec3

instance : Add Vec3 := ⟨Vec3.add⟩

instance : Sub Vec3 := ⟨Vec3.sub⟩

instance : Neg Vec3 := ⟨Vec3.neg⟩

instance : Zero Vec3 := ⟨Vec3.zero⟩

/-- Embedding of glam `DQuat` with ℚ components. -/
@[ext]
structure Quat where
  x : ℚ
  y : ℚ
  z : ℚ
  w : ℚ
  deriving DecidableEq

namespace Quat

def IDENTITY : Quat := ⟨0, 0, 0, 1⟩

/-- Hamilton product, component order exactly as in glam `DQuat::mul`. -/
def mul (a b : Quat) : Quat :=
  ⟨a.w * b.x + a.x * b.w + a.y * b.z - a.z * b.y,
   a.w * b.y - a.x * b.z + a.y * b.w + a.z * b.x,
   a.w * b.z + a.x * b.y - a.y * b.x + a.z * b.w,
   a.w * b.w - a.x * b.x - a.y * b.y - a.z * b.z⟩

def conjugate (a : Quat) : Quat := ⟨-a.x, -a.y, -a.z, a.w⟩

/-- glam `DQuat::inverse` is the conjugate (the quaternion is assumed unit). -/
def inverse (a : Quat) : Quat := conjugate a

def xyz (a : Quat) : Vec3 := ⟨a.x, a.y, a.z⟩

/-- glam `DQuat::mul_vec3`. -/
def mul_vec3 (q : Quat) (v : Vec3) : Vec3 :=
  let b := xyz q
  let b2 := Vec3.dot b b
  Vec3.smul (q.w * q.w - b2) v + Vec3.smul (Vec3.dot v b * 2) b +
    Vec3.smul (q.w * 2) (Vec3.cross b v)

/-- glam `DQuat::from_axis_angle`. -/
def from_axis_angle (ops : RealOps) (axis : Vec3) (angle : ℚ) : Quat :=
  let s := ops.sin (angle * (1 / 2))
  let c := ops.cos (angle * (1 / 2))
  ⟨axis.x * s, axis.y * s, axis.z * s, c⟩

/-- glam `DQuat::from_scaled_axis`. -/
def from_scaled_axis (ops : RealOps) (v : Vec3) : Quat :=
  let l := Vec3.length ops v
  if l = 0 then IDENTITY else from_axis_angle ops (Vec3.divS v l) l

def normSq (a : Quat) : ℚ := a.x * a.x + a.y * a.y + a.z * a.z + a.w * a.w

end Quat

/-- Embedding of glam `DMat3`; the three fields are the columns, as in glam. -/
@[ext]
structure Mat3 where
  x_axis : Vec3
  y_axis : Vec3
  z_axis : Vec3
  deriving DecidableEq

namespace Mat3

def identity : Mat3 := ⟨⟨1, 0, 0⟩, ⟨0, 1, 0⟩, ⟨0, 0, 1⟩⟩

def mul_vec3 (m : Mat3) (v : Vec3) : Vec3 :=
  Vec3.smul v.x m.x_axis + Vec3.smul v.y m.y_axis + Vec3.smul v.z m.z_axis

def mul (a b : Mat3) : Mat3 := ⟨mul_vec3 a b.x_axis, mul_vec3 a b.y_axis, mul_vec3 a b.z_axis⟩

def transpose (m : Mat3) : Mat3 :=
  ⟨⟨m.x_axis.x, m.y_axis.x, m.z_axis.x⟩,
   ⟨m.x_axis.y, m.y_axis.y, m.z_axis.y⟩,
   ⟨m.x_axis.z, m.y_axis.z, m.z_axis.z⟩⟩

/-- glam `DMat3::determinant`: `z_axis.dot(x_axis.cross(y_axis))`. -/
def det (m : Mat3) : ℚ := Vec3.dot m.z_axis (Vec3.cross m.x_axis m.y_axis)

/-- glam `DMat3::inverse`: adjugate columns scaled by the reciprocal of the
determinant, then transposed.  glam performs no singularity check in release
builds; a zero determinant makes `det.recip()` non-finite in f64 (modelled in
ℚ by the convention that the inverse of 0 is 0). -/
def inverse (m : Mat3) : Mat3 :=
  let tmp0 := Vec3.cross m.y_axis m.z_axis
  let tmp1 := Vec3.cross m.z_axis m.x_axis
  let tmp2 := Vec3.cross m.x_axis m.y_axis
  let inv_det := (det m)⁻¹
  transpose ⟨Vec3.smul inv_det tmp0, Vec3.smul inv_det tmp1, Vec3.smul inv_det tmp2⟩

/-- glam `DMat3::from_quat`. -/
def from_quat (q : Quat) : Mat3 :=
  let x2 := q.x + q.x
  let y2 := q.y + q.y
  let z2 := q.z + q.z
  let xx := q.x * x2
  let xy := q.x * y2
  let xz := q.x * z2
  let yy := q.y * y2
  let yz := q.y * z2
  let zz := q.z * z2
  let wx := q.w * x2
  let wy := q.w * y2
  let wz := q.w * z2
  ⟨⟨1 - (yy + zz), xy + wz, xz - wy⟩,
   ⟨xy - wz, 1 - (xx + zz), yz + wx⟩,
   ⟨xz + wy, yz - wx, 1 - (xx + yy)⟩⟩

end Mat3

instance : Mul Mat3 := ⟨Mat3.mul⟩

/-- Embedding of `Mass` (inertia_mass/mass.rs), a newtype over f64. -/
@[ext]
structure Mass where
  val : ℚ
  deriving DecidableEq

/-- Embedding of `Inertia` (inertia_mass/intertia.rs), a newtype over DMat3. -/
@[ext]
structure Inertia where
  m : Mat3
  deriving DecidableEq

namespace Inertia

/-- `Inertia::rot_mat`: congruence transform `rot * self.0 * rot.transpose()`. -/
def rot_mat (i : Inertia) (rot : Mat3) : Inertia := ⟨rot * i.m * rot.transpose⟩

/-- `Inertia::rotated`: rotate via the matrix of the quaternion. -/
def rotated (i : Inertia) (rot : Quat) : Inertia := i.rot_mat (Mat3.from_quat rot)

end Inertia

/-- Embedding of `InertiaMass` (inertia_mass/mod.rs). -/
@[ext]
structure InertiaMass where
  mass : Mass
  inertia : Inertia
  inv_inertia : Inertia
  deriving DecidableEq

namespace InertiaMass

/-- `InertiaMass::new`: stores the mass and the tensor and computes
`inv_inertia = inertia.0.inverse()` unconditionally (no singularity check). -/
def new (mass : Mass) (inertia : Inertia) : InertiaMass :=
  ⟨mass, inertia, ⟨inertia.m.inverse⟩⟩

/-- `InertiaMass::rotated`: re-runs `new` on the rotated tensor. -/
def rotated (im : InertiaMass) (rot : Quat) : InertiaMass :=
  new im.mass (im.inertia.rotated rot)

/-- `InertiaMass::rot_mat`. -/
def rot_mat (im : InertiaMass) (rot : Mat3) : InertiaMass :=
  new im.mass (im.inertia.rot_mat rot)

end InertiaMass

/-- Embedding of `Translation` (transform/translation.rs). -/
@[ext]
structure Translation where
  v : Vec3
  deriving DecidableEq

def Translation.add (a b : Translation) : Translation := ⟨a.v + b.v⟩

def Translation.ZERO : Translation := ⟨Vec3.zero⟩

/-- Embedding of `Rotation` (transform/rotation.rs), a newtype over DQuat. -/
@[ext]
structure Rotation where
  q : Quat
  deriving DecidableEq

namespace Rotation

def ZERO : Rotation := ⟨Quat.IDENTITY⟩

/-- The `Add` overload on `Rotation`: `a + b = Rotation(b.0 * a.0)`. -/
def add (a b : Rotation) : Rotation := ⟨Quat.mul b.q a.q⟩

/-- The `Sub` overload on `Rotation`: `a - b = Rotation(b.0.inverse() * a.0)`. -/
def sub (a b : Rotation) : Rotation := ⟨Quat.mul b.q.inverse a.q⟩

end Rotation

/-- Embedding of `Transform` (transform/mod.rs). -/
@[ext]
structure Transform where
  translation : Translation
  rotation : Rotation
  deriving DecidableEq

namespace Transform

def ZERO : Transform := ⟨Translation.ZERO, Rotation.ZERO⟩

def new (lin : Translation) (ang : Rotation) : Transform := ⟨lin, ang⟩

/-- The `Add` overload on `Transform`: componentwise, rotation by composition. -/
def add (a b : Transform) : Transform := ⟨a.translation.add b.translation, a.rotation.add b.rotation⟩

end Transform

/-- Embedding of `LinMom` (momentum/linear_momentum.rs). -/
@[ext]
structure LinMom where
  v : Vec3
  deriving DecidableEq

/-- Embedding of `AngMom` (momentum/angular_momentum.rs). -/
@[ext]
structure AngMom where
  v : Vec3
  deriving DecidableEq

/-- Embedding of `LinVel` (velocity/linear_velocity.rs). -/
@[ext]
structure LinVel where
  v : Vec3
  deriving DecidableEq

/-- Embedding of `AngVel` (velocity/angular_velocity.rs). -/
@[ext]
structure AngVel where
  v : Vec3
  deriving DecidableEq

/-- The `Div<Mass>` overload on `LinMom`: componentwise vector over scalar. -/
def LinMom.divMass (a : LinMom) (b : Mass) : LinVel := ⟨Vec3.divS a.v b.val⟩

/-- The `Div<Inertia>` overload on `AngMom` (angular_momentum.rs line 124):
`AngVel(b.0.mul_vec3(a.0))` — the tensor argument is applied as a matrix, so
"dividing" by an inverse tensor multiplies by it. -/
def AngMom.divInertia (a : AngMom) (b : Inertia) : AngVel := ⟨b.m.mul_vec3 a.v⟩

def LinMom.add (a b : LinMom) : LinMom := ⟨a.v + b.v⟩

def AngMom.add (a b : AngMom) : AngMom := ⟨a.v + b.v⟩

def LinVel.add (a b : LinVel) : LinVel := ⟨a.v + b.v⟩

def AngVel.add (a b : AngVel) : AngVel := ⟨a.v + b.v⟩

/-- `LinVel::mul_secs`: displacement `Translation(self.0 * rhs)`. -/
def LinVel.mul_secs (a : LinVel) (rhs : ℚ) : Translation := ⟨Vec3.smul rhs a.v⟩

/-- `AngVel::mul_secs`: `Rotation(Quat::from_scaled_axis(self.0 * rhs))`. -/
def AngVel.mul_secs (ops : RealOps) (a : AngVel) (rhs : ℚ) : Rotation :=
  ⟨Quat.from_scaled_axis ops (Vec3.smul rhs a.v)⟩

/-- Embedding of `Momentum` (momentum/mod.rs). -/
@[ext]
structure Momentum where
  linear : LinMom
  angular : AngMom
  deriving DecidableEq

namespace Momentum

def ZERO : Momentum := ⟨⟨Vec3.zero⟩, ⟨Vec3.zero⟩⟩

def add (a b : Momentum) : Momentum := ⟨a.linear.add b.linear, a.angular.add b.angular⟩

end Momentum

/-- Embedding of `Velocity` (velocity/mod.rs). -/
@[ext]
structure Velocity where
  linear : LinVel
  angular : AngVel
  deriving DecidableEq

namespace Velocity

def new (lin : LinVel) (ang : AngVel) : Velocity := ⟨lin, ang⟩

def add (a b : Velocity) : Velocity := ⟨a.linear.add b.linear, a.angular.add b.angular⟩

/-- The `Mul<f64>` overload on `Velocity`: componentwise scaling. -/
def smul (a : Velocity) (b : ℚ) : Velocity := ⟨⟨Vec3.smul b a.linear.v⟩, ⟨Vec3.smul b a.angular.v⟩⟩

/-- The `Mul<Duration>` overload on `Velocity` (velocity/mod.rs line 138):
`Transform::new(a.linear * b, a.angular * b)`, with `as_secs_f64` modelled as
the identity on the rational duration. -/
def mul_dur (ops : RealOps) (a : Velocity) (b : ℚ) : Transform :=
  Transform.new (a.linear.mul_secs b) (AngVel.mul_secs ops a.angular b)

end Velocity

/-- The `Div<InertiaMass>` overload on `Momentum` (momentum/mod.rs line 108):
`Velocity::new(a.linear / b.mass, a.angular / b.inv_inertia)` — note the
angular part applies the stored body-frame inverse tensor, unrotated. -/
def Momentum.divInertiaMass (a : Momentum) (b : InertiaMass) : Velocity :=
  Velocity.new (a.linear.divMass b.mass) (a.angular.divInertia b.inv_inertia)

/-- Embedding of `Force` (moments/force.rs). -/
@[ext]
structure Force where
  v : Vec3
  deriving DecidableEq

/-- Embedding of `Torque` (moments/torque.rs). -/
@[ext]
structure Torque where
  v : Vec3
  deriving DecidableEq

/-- `Force::mul_secs`: impulse `LinMom(self.0 * rhs)`. -/
def Force.mul_secs (a : Force) (rhs : ℚ) : LinMom := ⟨Vec3.smul rhs a.v⟩

/-- `Torque::mul_secs`: angular impulse `AngMom(self.0 * rhs)`. -/
def Torque.mul_secs (a : Torque) (rhs : ℚ) : AngMom := ⟨Vec3.smul rhs a.v⟩

/-- Embedding of `Moment` (moments/mod.rs). -/
@[ext]
structure Moment where
  force : Force
  torque : Torque
  deriving DecidableEq

namespace Moment

def ZERO : Moment := ⟨⟨Vec3.zero⟩, ⟨Vec3.zero⟩⟩

def new (force : Force) (torque : Torque) : Moment := ⟨force, torque⟩

def add (a b : Moment) : Moment := ⟨⟨a.force.v + b.force.v⟩, ⟨a.torque.v + b.torque.v⟩⟩

/-- The `Mul<f64>` overload on `Moment`: componentwise scaling. -/
def smul (a : Moment) (b : ℚ) : Moment := ⟨⟨Vec3.smul b a.force.v⟩, ⟨Vec3.smul b a.torque.v⟩⟩

/-- `Moment::mul_secs` / `Moment::mul_dur`: scales into a `Momentum`. -/
def mul_dur (a : Moment) (rhs : ℚ) : Momentum :=
  ⟨a.force.mul_secs rhs, a.torque.mul_secs rhs⟩

/-- `Moment::magnitude` (moments/mod.rs lines 88-94): the square root of the
PRODUCT of the squared lengths of force and torque. -/
def magnitude (ops : RealOps) (a : Moment) : ℚ :=
  ops.sqrt (Vec3.length_squared a.force.v * Vec3.length_squared a.torque.v)

end Moment

/-- `DENSITY` constant from panels/mod.rs (f64 literal 1.293 idealised). -/
def DENSITY : ℚ := 1293 / 1000

/-- `HALF_C_D` constant from panels/mod.rs: `1.28 / 2.`. -/
def HALF_C_D : ℚ := (128 / 100) / 2

/-- Embedding of `Panel` (panels/mod.rs). -/
@[ext]
structure Panel where
  offset : Vec3
  normal : Vec3
  area : ℚ
  deriving DecidableEq

namespace Panel

/-- `Panel::to_force`: `Force::new(DENSITY * -v_sq * HALF_C_D * area)` where
`area = normal.dot(rel_vel.normalize_or_zero()) * self.area` and
`v_sq = rel_vel.0 * rel_vel.0` is the COMPONENTWISE square of the velocity. -/
def to_force (ops : RealOps) (p : Panel) (rel_vel : LinVel) : Force :=
  let area := Vec3.dot p.normal (Vec3.normalize_or_zero ops rel_vel.v) * p.area
  let v_sq := Vec3.mulV rel_vel.v rel_vel.v
  ⟨Vec3.smul area (Vec3.smul HALF_C_D (Vec3.smul DENSITY (-v_sq)))⟩

/-- `Panel::rotated`: both vectors are rotated by `rot.inverse()`. -/
def rotated (p : Panel) (rot : Quat) : Panel :=
  ⟨rot.inverse.mul_vec3 p.offset, rot.inverse.mul_vec3 p.normal, p.area⟩

/-- `Panel::rotation_based_velocity`:
`LinVel(vel.0.xzy().cross(self.rotated(rot).offset.xzy()).xzy())`. -/
def rotation_based_velocity (p : Panel) (rot : Quat) (vel : AngVel) : LinVel :=
  ⟨Vec3.xzy (Vec3.cross (Vec3.xzy vel.v) (Vec3.xzy (p.rotated rot).offset))⟩

/-- `Panel::tip_velocity`: the linear part is rotated by `rot` and added to the
rotation-based part. -/
def tip_velocity (p : Panel) (rot : Quat) (vel : Velocity) : LinVel :=
  LinVel.add ⟨rot.mul_vec3 vel.linear.v⟩ (p.rotation_based_velocity rot vel.angular)

end Panel

/-- Embedding of `State` (lib.rs). -/
@[ext]
structure State where
  mass : InertiaMass
  transform : Transform
  momentum : Momentum
  panels : List Panel
  deriving DecidableEq

namespace State

def new (mass : InertiaMass) (transform : Transform) (momentum : Momentum)
    (panels : List Panel) : State :=
  ⟨mass, transform, momentum, panels⟩

def without_panels (mass : InertiaMass) (transform : Transform) (momentum : Momentum) : State :=
  ⟨mass, transform, momentum, []⟩

/-- `State::rotated_inv_inertia`: the stored inverse tensor congruence-rotated
by the current orientation. -/
def rotated_inv_inertia (s : State) : Inertia :=
  s.mass.inv_inertia.rotated s.transform.rotation.q

/-- `State::rotated_inertia`. -/
def rotated_inertia (s : State) : Inertia :=
  s.mass.inertia.rotated s.transform.rotation.q

/-- `State::velocity`: `momentum.linear / mass` and
`momentum.rotation / rotated_inv_inertia()` (the source field `rotation` of
`Momentum` is its angular component). -/
def velocity (s : State) : Velocity :=
  Velocity.new (s.momentum.linear.divMass s.mass.mass)
    (s.momentum.angular.divInertia s.rotated_inv_inertia)

/-- `State::simulation_step` (lib.rs lines 61-90), translated line by line:
`int2` advances from `self` by `k1` over the FULL delta, `int3` advances from
`int2` by `k2` over half delta, `int4` advances from `int3` by `k3` over half
delta, and the momentum derivative at every stage is the constant `moment`
argument; the panel list is never consulted. -/
def simulation_step (ops : RealOps) (s : State) (delta : ℚ) (moment : Moment) : State :=
  let half_delta := delta / 2
  let k1_dx := s.velocity
  let k1_dp := moment
  let int2 := without_panels s.mass (s.transform.add (k1_dx.mul_dur ops delta))
    (s.momentum.add (k1_dp.mul_dur delta))
  let k2_dx := int2.velocity
  let k2_dp := moment
  let int3 := without_panels int2.mass (int2.transform.add (k2_dx.mul_dur ops half_delta))
    (int2.momentum.add (k2_dp.mul_dur half_delta))
  let k3_dx := int3.velocity
  let k3_dp := moment
  let int4 := without_panels int3.mass (int3.transform.add (k3_dx.mul_dur ops half_delta))
    (int3.momentum.add (k3_dp.mul_dur half_delta))
  let k4_dx := int4.velocity
  let k4_dp := moment
  { s with
    transform := s.transform.add
      ((((k1_dx.add (k2_dx.smul 2)).add (k3_dx.smul 2)).add k4_dx).mul_dur ops (delta / 6))
    momentum := s.momentum.add
      ((((k1_dp.add (k2_dp.smul 2)).add (k3_dp.smul 2)).add k4_dp).mul_dur (delta / 6)) }

end State

/-- `Panel::to_moment` (panels/mod.rs lines 52-60): the velocity is the
momentum divided by the body-frame `InertiaMass` (NOT `State::velocity`), and
the resulting `Moment` is built from the pair
`(rot.mul_vec3(self.offset), force.0)` in the `(force, torque)` constructor
positions of `Moment::new` — the rotated offset lands in the force field and
the aerodynamic force in the torque field, with no cross product. -/
def Panel.to_moment (ops : RealOps) (p : Panel) (s : State) : Moment :=
  let rot := s.transform.rotation.q
  let vel := s.momentum.divInertiaMass s.mass
  let vel2 := p.tip_velocity rot vel
  let force := Force.mk (rot.mul_vec3 (p.to_force ops vel2).v)
  Moment.new ⟨rot.mul_vec3 p.offset⟩ ⟨force.v⟩

/-- Advancing a state by a velocity and a momentum derivative over a time span:
the common pattern of the integrator's intermediate states ("s advanced by k
over t"). -/
def State.advanced (ops : RealOps) (s : State) (dx : Velocity) (dp : Moment) (t : ℚ) : State :=
  State.without_panels s.mass (s.transform.add (dx.mul_dur ops t)) (s.momentum.add (dp.mul_dur t))

/-- Modelled from the spec wording of claim C1: the classical RK4 stage
placement, with every intermediate state advanced from the INITIAL state s0 —
by k1 over half delta, by k2 over half delta, by k3 over the full delta — and
the usual (1,2,2,1)/6 final update.  The momentum derivative is the constant
external moment at every stage, as in the code.  This definition follows the
claim text and exists only to be compared against `State.simulation_step`. -/
def State.simulation_step_specClaim (ops : RealOps) (s : State) (delta : ℚ)
    (moment : Moment) : State :=
  let half_delta := delta / 2
  let k1_dx := s.velocity
  let k1_dp := moment
  let s1 := State.advanced ops s k1_dx k1_dp half_delta
  let k2_dx := s1.velocity
  let k2_dp := moment
  let s2 := State.advanced ops s k2_dx k2_dp half_delta
  let k3_dx := s2.velocity
  let k3_dp := moment
  let s3 := State.advanced ops s k3_dx k3_dp delta
  let k4_dx := s3.velocity
  let k4_dp := moment
  { s with
    transform := s.transform.add
      ((((k1_dx.add (k2_dx.smul 2)).add (k3_dx.smul 2)).add k4_dx).mul_dur ops (delta / 6))
    momentum := s.momentum.add
      ((((k1_dp.add (k2_dp.smul 2)).add (k3_dp.smul 2)).add k4_dp).mul_dur (delta / 6)) }

/-- Modelled from the spec wording of claims C2/C3: the aggregate moment
`external_moment + Σ panel.to_moment(state)`, folded with the zero moment as
identity.  The source has no such function; this definition follows the claim
text for comparison purposes. -/
def total_moment_specClaim (ops : RealOps) (external : Moment) (s : State) : Moment :=
  Moment.add external ((s.panels.map (fun p => p.to_moment ops s)).foldl Moment.add Moment.ZERO)

/-- Modelled from the spec wording of claim C2: identical stage placement to
`State.simulation_step`, but with the momentum derivative recomputed at every
stage as the external moment plus the aggregate panel moment of that stage's
intermediate state.  This definition follows the claim text and exists only to
be compared against `State.simulation_step`. -/
def State.simulation_step_recomputedClaim (ops : RealOps) (s : State) (delta : ℚ)
    (moment : Moment) : State :=
  let half_delta := delta / 2
  let k1_dx := s.velocity
  let k1_dp := total_moment_specClaim ops moment s
  let int2 := State.advanced ops s k1_dx k1_dp delta
  let int2p := { int2 with panels := s.panels }
  let k2_dx := int2.velocity
  let k2_dp := total_moment_specClaim ops moment int2p
  let int3 := State.advanced ops int2 k2_dx k2_dp half_delta
  let int3p := { int3 with panels := s.panels }
  let k3_dx := int3.velocity
  let k3_dp := total_moment_specClaim ops moment int3p
  let int4 := State.advanced ops int3 k3_dx k3_dp half_delta
  let int4p := { int4 with panels := s.panels }
  let k4_dx := int4.velocity
  let k4_dp := total_moment_specClaim ops moment int4p
  { s with
    transform := s.transform.add
      ((((k1_dx.add (k2_dx.smul 2)).add (k3_dx.smul 2)).add k4_dx).mul_dur ops (delta / 6))
    momentum := s.momentum.add
      ((((k1_dp.add (k2_dp.smul 2)).add (k3_dp.smul 2)).add k4_dp).mul_dur (delta / 6)) }

/-- Modelled from the spec wording of claim C5: the rigid-body point-velocity
formula `world_velocity.linear + world_velocity.angular × world_offset`, with
the offset rotated into world frame by the quaternion itself and the linear
velocity used unrotated.  For comparison against `Panel.tip_velocity`. -/
def Panel.tip_velocity_specClaim (p : Panel) (rot : Quat) (vel : Velocity) : LinVel :=
  ⟨vel.linear.v + Vec3.cross vel.angular.v (rot.mul_vec3 p.offset)⟩

/-- Modelled from the spec wording of claim C4: a force of magnitude
`density * |v|^2 * half_Cd * area_component` in the direction `-normal`.
For comparison against `Panel.to_force`. -/
def Panel.to_force_specClaim (ops : RealOps) (p : Panel) (rel_vel : LinVel) : Force :=
  let area := Vec3.dot p.normal (Vec3.normalize_or_zero ops rel_vel.v) * p.area
  ⟨Vec3.smul (DENSITY * Vec3.length_squared rel_vel.v * HALF_C_D * area) (-p.normal)⟩

/-- Modelled from the spec wording of claim C3: rotate the panel into world
frame, take the tip velocity derived from `State::velocity` (the rotated
inverse inertia), compute the force through `to_force` on the world-frame
panel, and emit `Moment { force, torque = world_offset × force }`.
For comparison against `Panel.to_moment`. -/
def Panel.to_moment_specClaim (ops : RealOps) (p : Panel) (s : State) : Moment :=
  let rot := s.transform.rotation.q
  let world_offset := rot.mul_vec3 p.offset
  let world_normal := rot.mul_vec3 p.normal
  let vel := s.velocity
  let tip := LinVel.mk (vel.linear.v + Vec3.cross vel.angular.v world_offset)
  let force := Panel.to_force ops ⟨world_offset, world_normal, p.area⟩ tip
  Moment.new force ⟨Vec3.cross world_offset force.v⟩

/-- A concrete instantiation of the abstract real-valued primitives: the square
root agrees with the true square root on every argument at which the
counterexample computations below evaluate it (all of which are perfect
squares of rationals), and sine/cosine are never reached because every
rotation update in those computations happens at zero angular velocity. -/
def opsEx : RealOps :=
  ⟨fun a =>
    if a = 0 then 0 else if a = 1 then 1 else if a = 4 then 2
    else if a = 25 / 4 then 5 / 2 else if a = 9 then 3 else if a = 25 then 5 else 0,
   fun _ => 0, fun _ => 1⟩

/-- The identity inertia tensor as a fixture. -/
def inertiaId : Inertia := ⟨Mat3.identity⟩

/-- Unit mass with identity inertia tensor. -/
def imUnit : InertiaMass := InertiaMass.new ⟨1⟩ inertiaId

/-- Fixture for claim C1: unit mass, identity inertia, zero pose and momentum,
no panels. -/
def st1 : State := State.new imUnit Transform.ZERO Momentum.ZERO []

/-- Fixture for claim C1: a constant external force of 6 N along x. -/
def m1 : Moment := Moment.new ⟨⟨6, 0, 0⟩⟩ ⟨⟨0, 0, 0⟩⟩

/-- Fixture for claim C2: unit mass, identity inertia, linear momentum 1 N·s
along x, one panel at offset (1,0,0) with normal (0,1,0) and area 1 (its
normal stays perpendicular to the tip velocity, so the panel contributes a
pure nonzero moment without introducing irrational rotations). -/
def stC2 : State :=
  ⟨imUnit, Transform.ZERO, ⟨⟨⟨1, 0, 0⟩⟩, ⟨⟨0, 0, 0⟩⟩⟩, [⟨⟨1, 0, 0⟩, ⟨0, 1, 0⟩, 1⟩]⟩

/-- Fixture for claims C3 and C5: a panel at offset (1,0,0) with normal
(0,1,0) and area 1. -/
def panelX : Panel := ⟨⟨1, 0, 0⟩, ⟨0, 1, 0⟩, 1⟩

/-- Fixture for claim C3: unit mass, identity inertia, identity pose, angular
momentum 1 about z. -/
def st3 : State := ⟨imUnit, Transform.ZERO, ⟨⟨⟨0, 0, 0⟩⟩, ⟨⟨0, 0, 1⟩⟩⟩, []⟩

/-- Fixture for claim C4: a panel with normal (1,0,0) and area 1 at the
origin. -/
def panel4 : Panel := ⟨⟨0, 0, 0⟩, ⟨1, 0, 0⟩, 1⟩

/-- A singular (rank-2) inertia tensor, diag(1,1,0). -/
def inertiaSing : Inertia := ⟨⟨⟨1, 0, 0⟩, ⟨0, 1, 0⟩, ⟨0, 0, 0⟩⟩⟩

attribute [simp] Vec3.add Vec3.sub Vec3.neg Vec3.smul Vec3.mulV Vec3.divS Vec3.dot Vec3.cross
  Vec3.xzy Vec3.length_squared Vec3.length Vec3.normalize_or_zero Vec3.zero

attribute [simp] Quat.IDENTITY Quat.mul Quat.conjugate Quat.inverse Quat.xyz Quat.mul_vec3
  Quat.from_axis_angle Quat.from_scaled_axis Quat.normSq

attribute [simp] Mat3.identity Mat3.mul_vec3 Mat3.mul Mat3.transpose Mat3.det Mat3.inverse
  Mat3.from_quat

attribute [simp] Inertia.rot_mat Inertia.rotated InertiaMass.new InertiaMass.rotated
  InertiaMass.rot_mat

attribute [simp] Translation.add Translation.ZERO Rotation.ZERO Rotation.add Rotation.sub
  Transform.ZERO Transform.new Transform.add

attribute [simp] LinMom.divMass AngMom.divInertia LinMom.add AngMom.add LinVel.add AngVel.add
  LinVel.mul_secs AngVel.mul_secs Momentum.ZERO Momentum.add Velocity.new Velocity.add
  Velocity.smul Velocity.mul_dur Momentum.divInertiaMass

attribute [simp] Force.mul_secs Torque.mul_secs Moment.ZERO Moment.new Moment.add Moment.smul
  Moment.mul_dur Moment.magnitude

attribute [simp] DENSITY HALF_C_D Panel.to_force Panel.rotated Panel.rotation_based_velocity
  Panel.tip_velocity Panel.to_moment

attribute [simp] State.new State.without_panels State.rotated_inv_inertia State.rotated_inertia
  State.velocity State.advanced

attribute [simp] total_moment_specClaim Panel.tip_velocity_specClaim Panel.to_force_specClaim
  Panel.to_moment_specClaim opsEx inertiaId imUnit st1 m1 stC2 panelX st3 panel4 inertiaSing

@[simp]
theorem Vec3.add_def (a b : Vec3) : a + b = ⟨a.x + b.x, a.y + b.y, a.z + b.z⟩ := rfl

@[simp]
theorem Vec3.sub_def (a b : Vec3) : a - b = ⟨a.x - b.x, a.y - b.y, a.z - b.z⟩ := rfl

@[simp]
theorem Vec3.neg_def (a : Vec3) : -a = ⟨-a.x, -a.y, -a.z⟩ := rfl

@[simp]
theorem Vec3.zero_def : (0 : Vec3) = ⟨0, 0, 0⟩ := rfl

@[simp]
theorem Mat3.mul_def (a b : Mat3) : a * b = Mat3.mul a b := rfl

/-- Unfolding lemma for `State.simulation_step`: naming the four stage
derivatives and the three intermediate states by hypotheses makes the chained
structure of the code explicit and lets concrete runs be evaluated stage by
stage. -/
theorem State.simulation_step_unfold (ops : RealOps) (s : State) (delta : ℚ) (moment : Moment)
    (k1 k2 k3 k4 : Velocity) (i2 i3 i4 : State)
    (h1 : k1 = s.velocity)
    (hi2 : i2 = State.advanced ops s k1 moment delta)
    (h2 : k2 = i2.velocity)
    (hi3 : i3 = State.advanced ops i2 k2 moment (delta / 2))
    (h3 : k3 = i3.velocity)
    (hi4 : i4 = State.advanced ops i3 k3 moment (delta / 2))
    (h4 : k4 = i4.velocity) :
    State.simulation_step ops s delta moment =
      { s with
        transform := s.transform.add
          ((((k1.add (k2.smul 2)).add (k3.smul 2)).add k4).mul_dur ops (delta / 6))
        momentum := s.momentum.add
          ((((moment.add (moment.smul 2)).add (moment.smul 2)).add moment).mul_dur (delta / 6)) } := by
  subst h1 hi2 h2 hi3 h3 hi4 h4
  rfl

/-- Unfolding lemma for `State.simulation_step_specClaim`, mirroring
`State.simulation_step_unfold`. -/
theorem State.simulation_step_specClaim_unfold (ops : RealOps) (s : State) (delta : ℚ)
    (moment : Moment) (k1 k2 k3 k4 : Velocity) (s1 s2 s3 : State)
    (h1 : k1 = s.velocity)
    (hs1 : s1 = State.advanced ops s k1 moment (delta / 2))
    (h2 : k2 = s1.velocity)
    (hs2 : s2 = State.advanced ops s k2 moment (delta / 2))
    (h3 : k3 = s2.velocity)
    (hs3 : s3 = State.advanced ops s k3 moment delta)
    (h4 : k4 = s3.velocity) :
    State.simulation_step_specClaim ops s delta moment =
      { s with
        transform := s.transform.add
          ((((k1.add (k2.smul 2)).add (k3.smul 2)).add k4).mul_dur ops (delta / 6))
        momentum := s.momentum.add
          ((((moment.add (moment.smul 2)).add (moment.smul 2)).add moment).mul_dur (delta / 6)) } := by
  subst h1 hs1 h2 hs2 h3 hs3 h4
  rfl

/-- Unfolding lemma for `State.simulation_step_recomputedClaim`, mirroring
`State.simulation_step_unfold` with the per-stage aggregate moments named. -/
theorem State.simulation_step_recomputedClaim_unfold (ops : RealOps) (s : State) (delta : ℚ)
    (moment : Moment) (k1 k2 k3 k4 : Velocity) (q1 q2 q3 q4 : Moment) (i2 i3 i4 : State)
    (h1 : k1 = s.velocity)
    (hq1 : q1 = total_moment_specClaim ops moment s)
    (hi2 : i2 = State.advanced ops s k1 q1 delta)
    (h2 : k2 = i2.velocity)
    (hq2 : q2 = total_moment_specClaim ops moment { i2 with panels := s.panels })
    (hi3 : i3 = State.advanced ops i2 k2 q2 (delta / 2))
    (h3 : k3 = i3.velocity)
    (hq3 : q3 = total_moment_specClaim ops moment { i3 with panels := s.panels })
    (hi4 : i4 = State.advanced ops i3 k3 q3 (delta / 2))
    (h4 : k4 = i4.velocity)
    (hq4 : q4 = total_moment_specClaim ops moment { i4 with panels := s.panels }) :
    State.simulation_step_recomputedClaim ops s delta moment =
      { s with
        transform := s.transform.add
          ((((k1.add (k2.smul 2)).add (k3.smul 2)).add k4).mul_dur ops (delta / 6))
        momentum := s.momentum.add
          ((((q1.add (q2.smul 2)).add (q3.smul 2)).add q4).mul_dur (delta / 6)) } := by
  subst h1 hq1 hi2 h2 hq2 hi3 h3 hq3 hi4 h4 hq4
  rfl

set_option maxHeartbeats 1000000 in
/-- C1 counterexample: for the state with unit mass, identity inertia, zero
pose and momentum and no panels, under a constant external force of 6 N along
x over one second, the code's `simulation_step` moves the translation to
(7, 0, 0) while the claimed classical RK4 stage placement (intermediate
states advanced from s0 by half, half, full delta) yields (3, 0, 0); the two
step functions disagree at this input, so the claim as stated is false. -/
theorem c1_counterexample :
    (State.simulation_step opsEx st1 1 m1).transform.translation = ⟨⟨7, 0, 0⟩⟩ ∧
      (State.simulation_step_specClaim opsEx st1 1 m1).transform.translation = ⟨⟨3, 0, 0⟩⟩ ∧
      State.simulation_step opsEx st1 1 m1 ≠ State.simulation_step_specClaim opsEx st1 1 m1 := by
  have h1 : (⟨⟨⟨0, 0, 0⟩⟩, ⟨⟨0, 0, 0⟩⟩⟩ : Velocity) = st1.velocity := by norm_num
  have hi2 : (⟨imUnit, ⟨⟨⟨0, 0, 0⟩⟩, ⟨⟨0, 0, 0, 1⟩⟩⟩, ⟨⟨⟨6, 0, 0⟩⟩, ⟨⟨0, 0, 0⟩⟩⟩, []⟩ : State) =
      State.advanced opsEx st1 ⟨⟨⟨0, 0, 0⟩⟩, ⟨⟨0, 0, 0⟩⟩⟩ m1 1 := by norm_num
  have h2 : (⟨⟨⟨6, 0, 0⟩⟩, ⟨⟨0, 0, 0⟩⟩⟩ : Velocity) =
      State.velocity ⟨imUnit, ⟨⟨⟨0, 0, 0⟩⟩, ⟨⟨0, 0, 0, 1⟩⟩⟩, ⟨⟨⟨6, 0, 0⟩⟩, ⟨⟨0, 0, 0⟩⟩⟩, []⟩ := by
    norm_num
  have hi3 : (⟨imUnit, ⟨⟨⟨3, 0, 0⟩⟩, ⟨⟨0, 0, 0, 1⟩⟩⟩, ⟨⟨⟨9, 0, 0⟩⟩, ⟨⟨0, 0, 0⟩⟩⟩, []⟩ : State) =
      State.advanced opsEx ⟨imUnit, ⟨⟨⟨0, 0, 0⟩⟩, ⟨⟨0, 0, 0, 1⟩⟩⟩, ⟨⟨⟨6, 0, 0⟩⟩, ⟨⟨0, 0, 0⟩⟩⟩, []⟩
        ⟨⟨⟨6, 0, 0⟩⟩, ⟨⟨0, 0, 0⟩⟩⟩ m1 (1 / 2) := by norm_num
  have h3 : (⟨⟨⟨9, 0, 0⟩⟩, ⟨⟨0, 0, 0⟩⟩⟩ : Velocity) =
      State.velocity ⟨imUnit, ⟨⟨⟨3, 0, 0⟩⟩, ⟨⟨0, 0, 0, 1⟩⟩⟩, ⟨⟨⟨9, 0, 0⟩⟩, ⟨⟨0, 0, 0⟩⟩⟩, []⟩ := by
    norm_num
  have hi4 : (⟨imUnit, ⟨⟨⟨15 / 2, 0, 0⟩⟩, ⟨⟨0, 0, 0, 1⟩⟩⟩, ⟨⟨⟨12, 0, 0⟩⟩, ⟨⟨0, 0, 0⟩⟩⟩, []⟩ : State) =
      State.advanced opsEx ⟨imUnit, ⟨⟨⟨3, 0, 0⟩⟩, ⟨⟨0, 0, 0, 1⟩⟩⟩, ⟨⟨⟨9, 0, 0⟩⟩, ⟨⟨0, 0, 0⟩⟩⟩, []⟩
        ⟨⟨⟨9, 0, 0⟩⟩, ⟨⟨0, 0, 0⟩⟩⟩ m1 (1 / 2) := by norm_num
  have h4 : (⟨⟨⟨12, 0, 0⟩⟩, ⟨⟨0, 0, 0⟩⟩⟩ : Velocity) =
      State.velocity
        ⟨imUnit, ⟨⟨⟨15 / 2, 0, 0⟩⟩, ⟨⟨0, 0, 0, 1⟩⟩⟩, ⟨⟨⟨12, 0, 0⟩⟩, ⟨⟨0, 0, 0⟩⟩⟩, []⟩ := by
    norm_num
  have hc := State.simulation_step_unfold opsEx st1 1 m1
    ⟨⟨⟨0, 0, 0⟩⟩, ⟨⟨0, 0, 0⟩⟩⟩ ⟨⟨⟨6, 0, 0⟩⟩, ⟨⟨0, 0, 0⟩⟩⟩ ⟨⟨⟨9, 0, 0⟩⟩, ⟨⟨0, 0, 0⟩⟩⟩
    ⟨⟨⟨12, 0, 0⟩⟩, ⟨⟨0, 0, 0⟩⟩⟩
    ⟨imUnit, ⟨⟨⟨0, 0, 0⟩⟩, ⟨⟨0, 0, 0, 1⟩⟩⟩, ⟨⟨⟨6, 0, 0⟩⟩, ⟨⟨0, 0, 0⟩⟩⟩, []⟩
    ⟨imUnit, ⟨⟨⟨3, 0, 0⟩⟩, ⟨⟨0, 0, 0, 1⟩⟩⟩, ⟨⟨⟨9, 0, 0⟩⟩, ⟨⟨0, 0, 0⟩⟩⟩, []⟩
    ⟨imUnit, ⟨⟨⟨15 / 2, 0, 0⟩⟩, ⟨⟨0, 0, 0, 1⟩⟩⟩, ⟨⟨⟨12, 0, 0⟩⟩, ⟨⟨0, 0, 0⟩⟩⟩, []⟩
    h1 hi2 h2 hi3 h3 hi4 h4
  -- spec-claim side stage values
  have g1 : (⟨⟨⟨0, 0, 0⟩⟩, ⟨⟨0, 0, 0⟩⟩⟩ : Velocity) = st1.velocity := h1
  have gs1 : (⟨imUnit, ⟨⟨⟨0, 0, 0⟩⟩, ⟨⟨0, 0, 0, 1⟩⟩⟩, ⟨⟨⟨3, 0, 0⟩⟩, ⟨⟨0, 0, 0⟩⟩⟩, []⟩ : State) =
      State.advanced opsEx st1 ⟨⟨⟨0, 0, 0⟩⟩, ⟨⟨0, 0, 0⟩⟩⟩ m1 (1 / 2) := by norm_num
  have g2 : (⟨⟨⟨3, 0, 0⟩⟩, ⟨⟨0, 0, 0⟩⟩⟩ : Velocity) =
      State.velocity ⟨imUnit, ⟨⟨⟨0, 0, 0⟩⟩, ⟨⟨0, 0, 0, 1⟩⟩⟩, ⟨⟨⟨3, 0, 0⟩⟩, ⟨⟨0, 0, 0⟩⟩⟩, []⟩ := by
    norm_num
  have gs2 : (⟨imUnit, ⟨⟨⟨3 / 2, 0, 0⟩⟩, ⟨⟨0, 0, 0, 1⟩⟩⟩, ⟨⟨⟨3, 0, 0⟩⟩, ⟨⟨0, 0, 0⟩⟩⟩, []⟩ : State) =
      State.advanced opsEx st1 ⟨⟨⟨3, 0, 0⟩⟩, ⟨⟨0, 0, 0⟩⟩⟩ m1 (1 / 2) := by norm_num
  have g3 : (⟨⟨⟨3, 0, 0⟩⟩, ⟨⟨0, 0, 0⟩⟩⟩ : Velocity) =
      State.velocity
        ⟨imUnit, ⟨⟨⟨3 / 2, 0, 0⟩⟩, ⟨⟨0, 0, 0, 1⟩⟩⟩, ⟨⟨⟨3, 0, 0⟩⟩, ⟨⟨0, 0, 0⟩⟩⟩, []⟩ := by
    norm_num
  have gs3 : (⟨imUnit, ⟨⟨⟨3, 0, 0⟩⟩, ⟨⟨0, 0, 0, 1⟩⟩⟩, ⟨⟨⟨6, 0, 0⟩⟩, ⟨⟨0, 0, 0⟩⟩⟩, []⟩ : State) =
      State.advanced opsEx st1 ⟨⟨⟨3, 0, 0⟩⟩, ⟨⟨0, 0, 0⟩⟩⟩ m1 1 := by norm_num
  have g4 : (⟨⟨⟨6, 0, 0⟩⟩, ⟨⟨0, 0, 0⟩⟩⟩ : Velocity) =
      State.velocity ⟨imUnit, ⟨⟨⟨3, 0, 0⟩⟩, ⟨⟨0, 0, 0, 1⟩⟩⟩, ⟨⟨⟨6, 0, 0⟩⟩, ⟨⟨0, 0, 0⟩⟩⟩, []⟩ := by
    norm_num
  have hs := State.simulation_step_specClaim_unfold opsEx st1 1 m1
    ⟨⟨⟨0, 0, 0⟩⟩, ⟨⟨0, 0, 0⟩⟩⟩ ⟨⟨⟨3, 0, 0⟩⟩, ⟨⟨0, 0, 0⟩⟩⟩ ⟨⟨⟨3, 0, 0⟩⟩, ⟨⟨0, 0, 0⟩⟩⟩
    ⟨⟨⟨6, 0, 0⟩⟩, ⟨⟨0, 0, 0⟩⟩⟩
    ⟨imUnit, ⟨⟨⟨0, 0, 0⟩⟩, ⟨⟨0, 0, 0, 1⟩⟩⟩, ⟨⟨⟨3, 0, 0⟩⟩, ⟨⟨0, 0, 0⟩⟩⟩, []⟩
    ⟨imUnit, ⟨⟨⟨3 / 2, 0, 0⟩⟩, ⟨⟨0, 0, 0, 1⟩⟩⟩, ⟨⟨⟨3, 0, 0⟩⟩, ⟨⟨0, 0, 0⟩⟩⟩, []⟩
    ⟨imUnit, ⟨⟨⟨3, 0, 0⟩⟩, ⟨⟨0, 0, 0, 1⟩⟩⟩, ⟨⟨⟨6, 0, 0⟩⟩, ⟨⟨0, 0, 0⟩⟩⟩, []⟩
    g1 gs1 g2 gs2 g3 gs3 g4
  rw [hc, hs]
  norm_num [State.mk.injEq, Transform.mk.injEq, Translation.mk.injEq, Momentum.mk.injEq,
    LinMom.mk.injEq, AngMom.mk.injEq, Vec3.mk.injEq]

/-- C1 amended: `simulation_step` computes its stage derivatives from chained
intermediate states — `i2` is s0 advanced by k1 over the FULL delta, `i3` is
`i2` advanced by k2 over half delta, `i4` is `i3` advanced by k3 over half
delta — with the momentum derivative frozen at the external moment, and then
updates Transform by `(k1_dx + 2*k2_dx + 2*k3_dx + k4_dx) * (delta/6)` and
Momentum by `(k1_dp + 2*k2_dp + 2*k3_dp + k4_dp) * (delta/6)`. -/
theorem c1_amended (ops : RealOps) (s : State) (delta : ℚ) (moment : Moment)
    (k1 k2 k3 k4 : Velocity) (i2 i3 i4 : State)
    (h1 : k1 = s.velocity)
    (hi2 : i2 = State.advanced ops s k1 moment delta)
    (h2 : k2 = i2.velocity)
    (hi3 : i3 = State.advanced ops i2 k2 moment (delta / 2))
    (h3 : k3 = i3.velocity)
    (hi4 : i4 = State.advanced ops i3 k3 moment (delta / 2))
    (h4 : k4 = i4.velocity) :
    State.simulation_step ops s delta moment =
      { s with
        transform := s.transform.add
          ((((k1.add (k2.smul 2)).add (k3.smul 2)).add k4).mul_dur ops (delta / 6))
        momentum := s.momentum.add
          ((((moment.add (moment.smul 2)).add (moment.smul 2)).add moment).mul_dur (delta / 6)) } := by
  subst h1 hi2 h2 hi3 h3 hi4 h4
  rfl

/-- C1 witness: the amended characterisation applied to the concrete
counterexample run, with every stage value instantiated definitionally. -/
theorem c1_witness :
    State.simulation_step opsEx st1 1 m1 =
      { st1 with
        transform := st1.transform.add
          ((((st1.velocity.add
            ((State.advanced opsEx st1 st1.velocity m1 1).velocity.smul 2)).add
            (((State.advanced opsEx (State.advanced opsEx st1 st1.velocity m1 1)
              (State.advanced opsEx st1 st1.velocity m1 1).velocity m1 (1 / 2)).velocity).smul
              2)).add
            (State.advanced opsEx
              (State.advanced opsEx (State.advanced opsEx st1 st1.velocity m1 1)
                (State.advanced opsEx st1 st1.velocity m1 1).velocity m1 (1 / 2))
              (State.advanced opsEx (State.advanced opsEx st1 st1.velocity m1 1)
                (State.advanced opsEx st1 st1.velocity m1 1).velocity m1 (1 / 2)).velocity m1
              (1 / 2)).velocity).mul_dur opsEx (1 / 6))
        momentum := st1.momentum.add
          ((((m1.add (m1.smul 2)).add (m1.smul 2)).add m1).mul_dur (1 / 6)) } :=
  c1_amended opsEx st1 1 m1 _ _ _ _ _ _ _ rfl rfl rfl rfl rfl rfl rfl

/-- C2 amended: at every one of the four stages the momentum derivative is the
frozen external moment, so the step's momentum update is exactly the external
moment times delta, and the outcome (transform and momentum) is entirely
independent of the panel list — `simulation_step` never evaluates
`to_moment`. -/
theorem c2_amended (ops : RealOps) (s : State) (delta : ℚ) (moment : Moment) (ps : List Panel) :
    (State.simulation_step ops s delta moment).momentum = s.momentum.add (moment.mul_dur delta) ∧
      (State.simulation_step ops { s with panels := ps } delta moment).momentum =
        (State.simulation_step ops s delta moment).momentum ∧
      (State.simulation_step ops { s with panels := ps } delta moment).transform =
        (State.simulation_step ops s delta moment).transform := by
  refine ⟨?_, rfl, rfl⟩
  rw [State.simulation_step_unfold ops s delta moment _ _ _ _ _ _ _ rfl rfl rfl rfl rfl rfl rfl]
  show Momentum.add _ _ = _
  ext <;> simp <;> ring

set_option maxHeartbeats 1000000 in
/-- C2 counterexample: at the fixture state (one panel whose aggregate moment
at s0 is the nonzero value with force field (1,0,0)) and zero external
moment, the code's `simulation_step` leaves the momentum unchanged, while the
claimed per-stage recomputation (external moment plus the panel fold at every
stage's intermediate state) changes it — so the momentum derivatives of the
code cannot equal the claimed recomputed values. -/
theorem c2_counterexample :
    (State.simulation_step opsEx stC2 1 Moment.ZERO).momentum = stC2.momentum ∧
      total_moment_specClaim opsEx Moment.ZERO stC2 ≠ Moment.ZERO ∧
      (State.simulation_step_recomputedClaim opsEx stC2 1 Moment.ZERO).momentum ≠
        stC2.momentum := by
  refine ⟨?_, ?_, ?_⟩
  · rw [State.simulation_step_unfold opsEx stC2 1 Moment.ZERO _ _ _ _ _ _ _ rfl rfl rfl rfl rfl
      rfl rfl]
    norm_num
  · norm_num [Moment.mk.injEq, Force.mk.injEq, Torque.mk.injEq, Vec3.mk.injEq]
  · have h1 : (⟨⟨⟨1, 0, 0⟩⟩, ⟨⟨0, 0, 0⟩⟩⟩ : Velocity) = stC2.velocity := by norm_num
    have hq1 : (⟨⟨⟨1, 0, 0⟩⟩, ⟨⟨0, 0, 0⟩⟩⟩ : Moment) =
        total_moment_specClaim opsEx Moment.ZERO stC2 := by norm_num
    have hi2 : (⟨imUnit, ⟨⟨⟨1, 0, 0⟩⟩, ⟨⟨0, 0, 0, 1⟩⟩⟩, ⟨⟨⟨2, 0, 0⟩⟩, ⟨⟨0, 0, 0⟩⟩⟩, []⟩ : State) =
        State.advanced opsEx stC2 ⟨⟨⟨1, 0, 0⟩⟩, ⟨⟨0, 0, 0⟩⟩⟩ ⟨⟨⟨1, 0, 0⟩⟩, ⟨⟨0, 0, 0⟩⟩⟩ 1 := by
      norm_num
    have h2 : (⟨⟨⟨2, 0, 0⟩⟩, ⟨⟨0, 0, 0⟩⟩⟩ : Velocity) =
        State.velocity ⟨imUnit, ⟨⟨⟨1, 0, 0⟩⟩, ⟨⟨0, 0, 0, 1⟩⟩⟩, ⟨⟨⟨2, 0, 0⟩⟩, ⟨⟨0, 0, 0⟩⟩⟩, []⟩ := by
      norm_num
    have hq2 : (⟨⟨⟨1, 0, 0⟩⟩, ⟨⟨0, 0, 0⟩⟩⟩ : Moment) =
        total_moment_specClaim opsEx Moment.ZERO
          { (⟨imUnit, ⟨⟨⟨1, 0, 0⟩⟩, ⟨⟨0, 0, 0, 1⟩⟩⟩, ⟨⟨⟨2, 0, 0⟩⟩, ⟨⟨0, 0, 0⟩⟩⟩, []⟩ : State) with
            panels := stC2.panels } := by norm_num
    have hi3 : (⟨imUnit, ⟨⟨⟨2, 0, 0⟩⟩, ⟨⟨0, 0, 0, 1⟩⟩⟩,
        ⟨⟨⟨5 / 2, 0, 0⟩⟩, ⟨⟨0, 0, 0⟩⟩⟩, []⟩ : State) =
        State.advanced opsEx ⟨imUnit, ⟨⟨⟨1, 0, 0⟩⟩, ⟨⟨0, 0, 0, 1⟩⟩⟩, ⟨⟨⟨2, 0, 0⟩⟩, ⟨⟨0, 0, 0⟩⟩⟩, []⟩
          ⟨⟨⟨2, 0, 0⟩⟩, ⟨⟨0, 0, 0⟩⟩⟩ ⟨⟨⟨1, 0, 0⟩⟩, ⟨⟨0, 0, 0⟩⟩⟩ (1 / 2) := by norm_num
    have h3 : (⟨⟨⟨5 / 2, 0, 0⟩⟩, ⟨⟨0, 0, 0⟩⟩⟩ : Velocity) =
        State.velocity
          ⟨imUnit, ⟨⟨⟨2, 0, 0⟩⟩, ⟨⟨0, 0, 0, 1⟩⟩⟩, ⟨⟨⟨5 / 2, 0, 0⟩⟩, ⟨⟨0, 0, 0⟩⟩⟩, []⟩ := by
      norm_num
    have hq3 : (⟨⟨⟨1, 0, 0⟩⟩, ⟨⟨0, 0, 0⟩⟩⟩ : Moment) =
        total_moment_specClaim opsEx Moment.ZERO
          { (⟨imUnit, ⟨⟨⟨2, 0, 0⟩⟩, ⟨⟨0, 0, 0, 1⟩⟩⟩,
              ⟨⟨⟨5 / 2, 0, 0⟩⟩, ⟨⟨0, 0, 0⟩⟩⟩, []⟩ : State) with
            panels := stC2.panels } := by norm_num
    have hi4 : (⟨imUnit, ⟨⟨⟨13 / 4, 0, 0⟩⟩, ⟨⟨0, 0, 0, 1⟩⟩⟩,
        ⟨⟨⟨3, 0, 0⟩⟩, ⟨⟨0, 0, 0⟩⟩⟩, []⟩ : State) =
        State.advanced opsEx
          ⟨imUnit, ⟨⟨⟨2, 0, 0⟩⟩, ⟨⟨0, 0, 0, 1⟩⟩⟩, ⟨⟨⟨5 / 2, 0, 0⟩⟩, ⟨⟨0, 0, 0⟩⟩⟩, []⟩
          ⟨⟨⟨5 / 2, 0, 0⟩⟩, ⟨⟨0, 0, 0⟩⟩⟩ ⟨⟨⟨1, 0, 0⟩⟩, ⟨⟨0, 0, 0⟩⟩⟩ (1 / 2) := by norm_num
    have h4 : (⟨⟨⟨3, 0, 0⟩⟩, ⟨⟨0, 0, 0⟩⟩⟩ : Velocity) =
        State.velocity
          ⟨imUnit, ⟨⟨⟨13 / 4, 0, 0⟩⟩, ⟨⟨0, 0, 0, 1⟩⟩⟩, ⟨⟨⟨3, 0, 0⟩⟩, ⟨⟨0, 0, 0⟩⟩⟩, []⟩ := by
      norm_num
    have hq4 : (⟨⟨⟨1, 0, 0⟩⟩, ⟨⟨0, 0, 0⟩⟩⟩ : Moment) =
        total_moment_specClaim opsEx Moment.ZERO
          { (⟨imUnit, ⟨⟨⟨13 / 4, 0, 0⟩⟩, ⟨⟨0, 0, 0, 1⟩⟩⟩,
              ⟨⟨⟨3, 0, 0⟩⟩, ⟨⟨0, 0, 0⟩⟩⟩, []⟩ : State) with
            panels := stC2.panels } := by norm_num
    rw [State.simulation_step_recomputedClaim_unfold opsEx stC2 1 Moment.ZERO
      ⟨⟨⟨1, 0, 0⟩⟩, ⟨⟨0, 0, 0⟩⟩⟩ ⟨⟨⟨2, 0, 0⟩⟩, ⟨⟨0, 0, 0⟩⟩⟩ ⟨⟨⟨5 / 2, 0, 0⟩⟩, ⟨⟨0, 0, 0⟩⟩⟩
      ⟨⟨⟨3, 0, 0⟩⟩, ⟨⟨0, 0, 0⟩⟩⟩
      ⟨⟨⟨1, 0, 0⟩⟩, ⟨⟨0, 0, 0⟩⟩⟩ ⟨⟨⟨1, 0, 0⟩⟩, ⟨⟨0, 0, 0⟩⟩⟩ ⟨⟨⟨1, 0, 0⟩⟩, ⟨⟨0, 0, 0⟩⟩⟩
      ⟨⟨⟨1, 0, 0⟩⟩, ⟨⟨0, 0, 0⟩⟩⟩
      ⟨imUnit, ⟨⟨⟨1, 0, 0⟩⟩, ⟨⟨0, 0, 0, 1⟩⟩⟩, ⟨⟨⟨2, 0, 0⟩⟩, ⟨⟨0, 0, 0⟩⟩⟩, []⟩
      ⟨imUnit, ⟨⟨⟨2, 0, 0⟩⟩, ⟨⟨0, 0, 0, 1⟩⟩⟩, ⟨⟨⟨5 / 2, 0, 0⟩⟩, ⟨⟨0, 0, 0⟩⟩⟩, []⟩
      ⟨imUnit, ⟨⟨⟨13 / 4, 0, 0⟩⟩, ⟨⟨0, 0, 0, 1⟩⟩⟩, ⟨⟨⟨3, 0, 0⟩⟩, ⟨⟨0, 0, 0⟩⟩⟩, []⟩
      h1 hq1 hi2 h2 hq2 hi3 h3 hq3 hi4 h4 hq4]
    norm_num [Momentum.mk.injEq, LinMom.mk.injEq, AngMom.mk.injEq, Vec3.mk.injEq]

/-- Closed form of `Panel.tip_velocity`: the double `xzy` swizzle around the
cross product reverses its orientation, so the code's rotation-based part
equals the mathematical cross product of the `rot.inverse()`-rotated offset
with the angular velocity (in that order), and the linear part is rotated by
`rot`. -/
theorem Panel.tip_velocity_eq (p : Panel) (rot : Quat) (vel : Velocity) :
    p.tip_velocity rot vel =
      ⟨rot.mul_vec3 vel.linear.v + Vec3.cross (rot.inverse.mul_vec3 p.offset) vel.angular.v⟩ := by
  ext <;> simp <;> ring

/-- C5 amended: `tip_velocity(rot, v)` returns
`rot · v.linear + (rot⁻¹ · offset) × v.angular` — the linear velocity IS
rotated by `rot`, the offset is rotated by the INVERSE quaternion, and the
swizzled cross product evaluates to `(rotated offset) × angular` rather than
`angular × (rotated offset)`. -/
theorem c5_amended (p : Panel) (rot : Quat) (vel : Velocity) :
    p.tip_velocity rot vel =
      ⟨rot.mul_vec3 vel.linear.v + Vec3.cross (rot.inverse.mul_vec3 p.offset) vel.angular.v⟩ :=
  Panel.tip_velocity_eq p rot vel

/-- C5 counterexample: at the identity orientation, offset (1,0,0) and
angular velocity (0,0,1), the code's `tip_velocity` is (0,-1,0) while the
claimed point-velocity formula `v.linear + v.angular × world_offset` gives
(0,1,0). -/
theorem c5_counterexample :
    Panel.tip_velocity panelX Quat.IDENTITY ⟨⟨⟨0, 0, 0⟩⟩, ⟨⟨0, 0, 1⟩⟩⟩ = ⟨⟨0, -1, 0⟩⟩ ∧
      Panel.tip_velocity_specClaim panelX Quat.IDENTITY ⟨⟨⟨0, 0, 0⟩⟩, ⟨⟨0, 0, 1⟩⟩⟩ =
        ⟨⟨0, 1, 0⟩⟩ ∧
      Panel.tip_velocity panelX Quat.IDENTITY ⟨⟨⟨0, 0, 0⟩⟩, ⟨⟨0, 0, 1⟩⟩⟩ ≠
        Panel.tip_velocity_specClaim panelX Quat.IDENTITY ⟨⟨⟨0, 0, 0⟩⟩, ⟨⟨0, 0, 1⟩⟩⟩ := by
  refine ⟨?_, ?_, ?_⟩ <;>
    norm_num [LinVel.mk.injEq, Vec3.mk.injEq]

/-- C3 amended: `to_moment` derives its velocity from the momentum divided by
the body-frame `InertiaMass` (the stored, unrotated inverse tensor — not
`State::velocity`), forms the tip velocity as
`rot · v.linear + (rot⁻¹ · offset) × v.angular`, computes the aerodynamic
force from the unrotated panel and rotates it by `rot`, and returns a
`Moment` whose FORCE field is the `rot`-rotated offset and whose TORQUE field
is the rotated force — no cross product is taken. -/
theorem c3_amended (ops : RealOps) (p : Panel) (s : State) :
    p.to_moment ops s =
      Moment.new ⟨s.transform.rotation.q.mul_vec3 p.offset⟩
        ⟨s.transform.rotation.q.mul_vec3
          (p.to_force ops
            ⟨s.transform.rotation.q.mul_vec3 (s.momentum.divInertiaMass s.mass).linear.v +
              Vec3.cross (s.transform.rotation.q.inverse.mul_vec3 p.offset)
                (s.momentum.divInertiaMass s.mass).angular.v⟩).v⟩ := by
  simp only [Panel.to_moment]
  rw [Panel.tip_velocity_eq]

/-- C3 counterexample: with unit mass, identity inertia and pose, angular
momentum 1 about z and the panel at offset (1,0,0), normal (0,1,0), area 1,
the code's `to_moment` returns force field (1,0,0) (the rotated offset) and
torque field (0, 2586/3125, 0) (the aerodynamic force), whereas the claimed
`Moment{force, torque = world_offset × force}` is force (0, -2586/3125, 0)
with torque (0, 0, -2586/3125). -/
theorem c3_counterexample :
    Panel.to_moment opsEx panelX st3 = Moment.new ⟨⟨1, 0, 0⟩⟩ ⟨⟨0, 2586 / 3125, 0⟩⟩ ∧
      Panel.to_moment_specClaim opsEx panelX st3 =
        Moment.new ⟨⟨0, -(2586 / 3125), 0⟩⟩ ⟨⟨0, 0, -(2586 / 3125)⟩⟩ ∧
      Panel.to_moment opsEx panelX st3 ≠ Panel.to_moment_specClaim opsEx panelX st3 := by
  refine ⟨?_, ?_, ?_⟩ <;>
    norm_num [Moment.mk.injEq, Force.mk.injEq, Torque.mk.injEq, Vec3.mk.injEq]

/-- C4 amended: `to_force` returns
`-(density * half_Cd * area_component) • (v ⊙ v)` where `⊙` is the
COMPONENTWISE square of the relative velocity and
`area_component = dot(normal, normalize_or_zero v) * area`; its direction is
along `-(v ⊙ v)`, not along `-normal`.  In the degenerate case `v = 0` the
result is exactly the zero force for every choice of the abstract
primitives. -/
theorem c4_amended (ops : RealOps) (p : Panel) (v : LinVel) :
    p.to_force ops v =
      ⟨Vec3.smul (-(DENSITY * HALF_C_D *
          (Vec3.dot p.normal (Vec3.normalize_or_zero ops v.v) * p.area)))
        (Vec3.mulV v.v v.v)⟩ ∧
      p.to_force ops ⟨⟨0, 0, 0⟩⟩ = ⟨⟨0, 0, 0⟩⟩ := by
  constructor <;> (ext <;> simp <;> ring)

/-- C4 counterexample: at relative velocity (3,4,0) against the panel with
normal (1,0,0), the code's force has a nonzero y component (it points along
the componentwise square of the velocity), while the claimed force of
magnitude `density·|v|²·half_Cd·area_component` in direction `-normal` has
none; the two disagree. -/
theorem c4_counterexample :
    (Panel.to_force opsEx panel4 ⟨⟨3, 4, 0⟩⟩).v.y ≠ 0 ∧
      (Panel.to_force_specClaim opsEx panel4 ⟨⟨3, 4, 0⟩⟩).v.y = 0 ∧
      Panel.to_force opsEx panel4 ⟨⟨3, 4, 0⟩⟩ ≠
        Panel.to_force_specClaim opsEx panel4 ⟨⟨3, 4, 0⟩⟩ := by
  refine ⟨?_, ?_, ?_⟩ <;>
    norm_num [Force.mk.injEq, Vec3.mk.injEq]

/-- C6: for a state with positive mass and invertible inertia,
`State::velocity` returns the linear momentum divided componentwise by the
mass and the angular momentum multiplied by `R · inv_inertia · Rᵀ`, where `R`
is the rotation matrix of the state's current orientation quaternion. -/
theorem c6_velocity (s : State) (_hm : 0 < s.mass.mass.val) (_hI : s.mass.inertia.m.det ≠ 0) :
    s.velocity =
      Velocity.new ⟨Vec3.divS s.momentum.linear.v s.mass.mass.val⟩
        ⟨(Mat3.mul (Mat3.mul (Mat3.from_quat s.transform.rotation.q) s.mass.inv_inertia.m)
          (Mat3.from_quat s.transform.rotation.q).transpose).mul_vec3 s.momentum.angular.v⟩ :=
  rfl

/-- C6 witness: the velocity characterisation evaluated at the concrete state
with unit mass, identity inertia and angular momentum about z. -/
theorem c6_witness :
    State.velocity st3 =
      Velocity.new ⟨Vec3.divS st3.momentum.linear.v st3.mass.mass.val⟩
        ⟨(Mat3.mul (Mat3.mul (Mat3.from_quat st3.transform.rotation.q) st3.mass.inv_inertia.m)
          (Mat3.from_quat st3.transform.rotation.q).transpose).mul_vec3 st3.momentum.angular.v⟩ :=
  c6_velocity st3 (by norm_num) (by norm_num)

/-- C7: the addition operator on `Rotation` composes quaternions as
`b.quaternion * a.quaternion` ("b applied after a"), subtraction composes
with the inverse as `b.quaternion⁻¹ * a.quaternion`, and the order matters:
two concrete quarter-turn-style rotations compose differently in the two
orders. -/
theorem c7_rotation_composition :
    (∀ a b : Rotation, Rotation.add a b = ⟨Quat.mul b.q a.q⟩ ∧
        Rotation.sub a b = ⟨Quat.mul b.q.inverse a.q⟩) ∧
      Rotation.add ⟨⟨1, 0, 0, 0⟩⟩ ⟨⟨0, 1, 0, 0⟩⟩ ≠ Rotation.add ⟨⟨0, 1, 0, 0⟩⟩ ⟨⟨1, 0, 0, 0⟩⟩ := by
  refine ⟨fun a b => ⟨rfl, rfl⟩, ?_⟩
  norm_num [Rotation.mk.injEq, Quat.mk.injEq]

/-- C8: for the singular tensor diag(1,1,0) (determinant 0),
`InertiaMass::new` does NOT fail — it returns normally, with `inv_inertia`
the unchecked adjugate-over-determinant expression (whose f64 entries are
non-finite; in the exact model the reciprocal of the zero determinant is 0),
and the returned `inv_inertia` is not an inverse of the tensor at all. -/
theorem c8_new_silent :
    Mat3.det inertiaSing.m = 0 ∧
      InertiaMass.new ⟨1⟩ inertiaSing = ⟨⟨1⟩, inertiaSing, ⟨inertiaSing.m.inverse⟩⟩ ∧
      Mat3.mul inertiaSing.m (InertiaMass.new ⟨1⟩ inertiaSing).inv_inertia.m ≠ Mat3.identity := by
  refine ⟨by norm_num, rfl, ?_⟩
  norm_num [Mat3.mk.injEq, Vec3.mk.injEq]

/-- The determinant is invariant under transposition. -/
theorem Mat3.det_transpose (m : Mat3) : m.transpose.det = m.det := by
  simp
  ring

/-- The determinant is multiplicative. -/
theorem Mat3.det_mul (a b : Mat3) : (Mat3.mul a b).det = a.det * b.det := by
  simp
  ring

/-- Cramer correctness of the glam-style inverse: for a tensor with nonzero
determinant, multiplying by the computed inverse yields the identity. -/
theorem Mat3.mul_inverse_of_det (m : Mat3) (h : m.det ≠ 0) :
    Mat3.mul m m.inverse = Mat3.identity := by
  have hinv : m.inverse = Mat3.transpose
      ⟨Vec3.smul m.det⁻¹ (Vec3.cross m.y_axis m.z_axis),
       Vec3.smul m.det⁻¹ (Vec3.cross m.z_axis m.x_axis),
       Vec3.smul m.det⁻¹ (Vec3.cross m.x_axis m.y_axis)⟩ := rfl
  rw [hinv]
  have hdet : m.det = Vec3.dot m.z_axis (Vec3.cross m.x_axis m.y_axis) := rfl
  have hD : m.z_axis.x * (m.x_axis.y * m.y_axis.z - m.y_axis.y * m.x_axis.z) +
      m.z_axis.y * (m.x_axis.z * m.y_axis.x - m.y_axis.z * m.x_axis.x) +
      m.z_axis.z * (m.x_axis.x * m.y_axis.y - m.y_axis.x * m.x_axis.y) ≠ 0 := by
    intro h0
    apply h
    rw [hdet]
    simp only [Vec3.dot, Vec3.cross]
    linear_combination h0
  ext <;>
    simp only [Mat3.mul, Mat3.mul_vec3, Mat3.transpose, Mat3.identity, Vec3.smul, Vec3.cross,
      Vec3.add_def] <;>
    field_simp [hD] <;>
    ring

/-- Orthogonality of the quaternion-derived rotation matrix: for a unit
quaternion, `R · Rᵀ` is the identity. -/
theorem Mat3.from_quat_mul_transpose (q : Quat) (h : q.normSq = 1) :
    Mat3.mul (Mat3.from_quat q) (Mat3.from_quat q).transpose = Mat3.identity := by
  obtain ⟨x, y, z, w⟩ := q
  simp only [Quat.normSq] at h
  ext
  · simp
    linear_combination (4 * (y ^ 2 + z ^ 2)) * h
  · simp
    linear_combination (-4 * (x * y)) * h
  · simp
    linear_combination (-4 * (x * z)) * h
  · simp
    linear_combination (-4 * (x * y)) * h
  · simp
    linear_combination (4 * (x ^ 2 + z ^ 2)) * h
  · simp
    linear_combination (-4 * (y * z)) * h
  · simp
    linear_combination (-4 * (x * z)) * h
  · simp
    linear_combination (-4 * (y * z)) * h
  · simp
    linear_combination (4 * (x ^ 2 + y ^ 2)) * h

/-- The rotation matrix of a unit quaternion has nonzero determinant. -/
theorem Mat3.det_from_quat_ne_zero (q : Quat) (h : q.normSq = 1) :
    (Mat3.from_quat q).det ≠ 0 := by
  have h2 := congrArg Mat3.det (Mat3.from_quat_mul_transpose q h)
  rw [Mat3.det_mul, Mat3.det_transpose] at h2
  have hid : Mat3.identity.det = 1 := by norm_num
  rw [hid] at h2
  intro h0
  rw [h0] at h2
  norm_num at h2

/-- C9: for positive mass, an invertible inertia tensor, and a unit
quaternion, the value built by `InertiaMass::new` satisfies
`inertia · inv_inertia = identity` exactly, and so does the value returned by
`rotated(q)` (which re-runs `new` on the congruence-rotated tensor, so the
pair is never mutated independently). -/
theorem c9_inverse_invariant (m : Mass) (I : Inertia) (q : Quat)
    (_hm : 0 < m.val) (hI : I.m.det ≠ 0) (hq : q.normSq = 1) :
    Mat3.mul (InertiaMass.new m I).inertia.m (InertiaMass.new m I).inv_inertia.m =
        Mat3.identity ∧
      Mat3.mul ((InertiaMass.new m I).rotated q).inertia.m
        ((InertiaMass.new m I).rotated q).inv_inertia.m = Mat3.identity := by
  constructor
  · exact Mat3.mul_inverse_of_det I.m hI
  · have hrot : (Inertia.rotated I q).m =
        Mat3.mul (Mat3.mul (Mat3.from_quat q) I.m) (Mat3.from_quat q).transpose := rfl
    have hdet : (Inertia.rotated I q).m.det ≠ 0 := by
      rw [hrot, Mat3.det_mul, Mat3.det_mul, Mat3.det_transpose]
      exact mul_ne_zero (mul_ne_zero (Mat3.det_from_quat_ne_zero q hq) hI)
        (Mat3.det_from_quat_ne_zero q hq)
    exact Mat3.mul_inverse_of_det (Inertia.rotated I q).m hdet

/-- C9 witness: the invariant holds at unit mass, identity inertia and the
identity quaternion. -/
theorem c9_witness :
    Mat3.mul (InertiaMass.new ⟨1⟩ inertiaId).inertia.m
        (InertiaMass.new ⟨1⟩ inertiaId).inv_inertia.m = Mat3.identity ∧
      Mat3.mul ((InertiaMass.new ⟨1⟩ inertiaId).rotated Quat.IDENTITY).inertia.m
        ((InertiaMass.new ⟨1⟩ inertiaId).rotated Quat.IDENTITY).inv_inertia.m =
        Mat3.identity :=
  c9_inverse_invariant ⟨1⟩ inertiaId Quat.IDENTITY (by norm_num) (by norm_num) (by norm_num)

/-- C10: `Moment::magnitude` returns the square root of the PRODUCT of the
squared lengths of force and torque (not a Euclidean norm), so whenever
either component is zero the magnitude is exactly 0, even if the other
component is nonzero (the square root of zero being zero). -/
theorem c10_magnitude (ops : RealOps) (m : Moment) (hs : ops.sqrt 0 = 0) :
    Moment.magnitude ops m =
        ops.sqrt (Vec3.length_squared m.force.v * Vec3.length_squared m.torque.v) ∧
      (m.torque.v = ⟨0, 0, 0⟩ → Moment.magnitude ops m = 0) ∧
      (m.force.v = ⟨0, 0, 0⟩ → Moment.magnitude ops m = 0) := by
  refine ⟨rfl, fun h => ?_, fun h => ?_⟩ <;> simp [h, hs]

/-- C10 witness: a moment with nonzero force (1,2,3) and zero torque has
magnitude exactly 0. -/
theorem c10_witness :
    Moment.magnitude opsEx (Moment.new ⟨⟨1, 2, 3⟩⟩ ⟨⟨0, 0, 0⟩⟩) =
        opsEx.sqrt (Vec3.length_squared (⟨⟨1, 2, 3⟩⟩ : Force).v *
          Vec3.length_squared (⟨⟨0, 0, 0⟩⟩ : Torque).v) ∧
      ((⟨⟨0, 0, 0⟩⟩ : Torque).v = ⟨0, 0, 0⟩ →
        Moment.magnitude opsEx (Moment.new ⟨⟨1, 2, 3⟩⟩ ⟨⟨0, 0, 0⟩⟩) = 0) ∧
      ((⟨⟨1, 2, 3⟩⟩ : Force).v = ⟨0, 0, 0⟩ →
        Moment.magnitude opsEx (Moment.new ⟨⟨1, 2, 3⟩⟩ ⟨⟨0, 0, 0⟩⟩) = 0) :=
  c10_magnitude opsEx (Moment.new ⟨⟨1, 2, 3⟩⟩ ⟨⟨0, 0, 0⟩⟩) (by norm_num)

end SimPhys
